import Mathlib

/-!
Shallow embedding of the UAV strategic-deconfliction engine
(`src/drone.py`, `src/utils.py`, `src/conflict.py`, `src/deconfliction.py`).

Modelling conventions:
* Python `float` coordinates and `datetime` instants are modelled as `ℚ`
  (exact arithmetic; every comparison the code performs is order-theoretic).
* Python `dict` (insertion-ordered, unique keys) is modelled as an
  association list; `dictInsert` replaces the value in place when the key is
  present and appends otherwise, exactly the `d[k] = v` semantics.
* Raising `ValueError` is modelled by `Except String`; a `KeyError` that a
  `d[k]` subscript may raise is modelled by `Option`.
* `datetime.now()` readings are passed in as explicit `ℚ` parameters.
-/

/-- Python dict subscript read `d[k]`: the value stored under `k`, if any. -/
def dictLookup {α : Type} (k : String) : List (String × α) → Option α
  | [] => none
  | (k1, v) :: rest => if k1 = k then some v else dictLookup k rest

/-- Python dict write `d[k] = v`: replace in place if `k` is present, else append. -/
def dictInsert {α : Type} (k : String) (v : α) : List (String × α) → List (String × α)
  | [] => [(k, v)]
  | (k1, v1) :: rest => if k1 = k then (k1, v) :: rest else (k1, v1) :: dictInsert k v rest

/-- Keys of a modelled dict. -/
def dictKeys {α : Type} (d : List (String × α)) : List String :=
  d.map Prod.fst

/-- `Waypoint` (drone.py): a 3D point with a timestamp. -/
structure Waypoint where
  x : ℚ
  y : ℚ
  z : ℚ
  timestamp : ℚ
deriving DecidableEq, Repr

/-- `Drone` (drone.py): a mission — an id, waypoints and a time window.
The dataclass also declares a `safety_buffer` field defaulting to 10.0,
never consulted by the engine. -/
structure Drone where
  id : String
  waypoints : List Waypoint
  start_time : ℚ
  end_time : ℚ
  safety_buffer : ℚ := 10
deriving DecidableEq, Repr

/-- `validate_coordinates` (utils.py): bounds check |x|,|y| ≤ 10000 and |z| ≤ 500. -/
def validate_coordinates (x y : ℚ) (z : ℚ := 0) : Bool :=
  decide (|x| ≤ 10000) && decide (|y| ≤ 10000) && decide (|z| ≤ 500)

/-- The user-defined `Drone.__init__` in drone.py: it assigns the four fields
(and a logger) and performs NO validation.  Because `Drone` declares this
`__init__` itself, the dataclass decorator does not install its generated
initializer, and `__post_init__` is never invoked: construction is total. -/
def droneInit (id : String) (waypoints : List Waypoint) (start_time end_time : ℚ) : Drone :=
  { id := id, waypoints := waypoints, start_time := start_time, end_time := end_time }

/-- `Drone.__post_init__` (drone.py): the validation body, checks in source
order — non-empty waypoints, end after start, every waypoint within bounds.
In the source this method is dead code (see `droneInit`); it is embedded here
so its checks can be compared with what construction actually does. -/
def dronePostInit (d : Drone) : Except String Unit :=
  if d.waypoints.isEmpty then
    Except.error "A drone must have at least one waypoint"
  else if d.end_time ≤ d.start_time then
    Except.error "End time must be after start time"
  else
    match d.waypoints.find? (fun wp => !(validate_coordinates wp.x wp.y wp.z)) with
    | some _ => Except.error "Invalid coordinates for waypoint"
    | none => Except.ok ()

/-- `Drone.get_time_range` (drone.py). -/
def get_time_range (d : Drone) : ℚ × ℚ :=
  (d.start_time, d.end_time)

/-- `ConflictPoint` (conflict.py). -/
structure ConflictPoint where
  drone_id : String
  point : ℚ × ℚ × ℚ
  type : String
  severity : String
deriving DecidableEq, Repr

/-- A value stored in `conflict_cache` (deconfliction.py): the one dict holds
booleans under `temporal_*` keys and conflict-point lists under `spatial_*` keys. -/
inductive CacheVal where
  | temporal (b : Bool)
  | spatial (pts : List ConflictPoint)
deriving DecidableEq, Repr

/-- `DeconflictionSystem` instance state (deconfliction.py): configuration plus
the registry, both indexes and the conflict cache.  The spatial index (a KDTree
in the source, never queried) is modelled by the point list it is built from. -/
structure DeconflictionSystem where
  safety_buffer : ℚ
  max_simulated_drones : Nat
  simulated_drones : List (String × Drone)
  spatial_index : Option (List (ℚ × ℚ × ℚ))
  time_index : List (ℚ × List String)
  conflict_cache : List (String × CacheVal)
deriving DecidableEq

/-- `DeconflictionSystem.__init__` (deconfliction.py), defaults
`safety_buffer=10.0`, `max_simulated_drones=1000`. -/
def initSystem (safety_buffer : ℚ := 10) (max_simulated_drones : Nat := 1000) :
    DeconflictionSystem :=
  { safety_buffer := safety_buffer
    max_simulated_drones := max_simulated_drones
    simulated_drones := []
    spatial_index := none
    time_index := []
    conflict_cache := [] }

/-- One iteration of the time-index loop in `_update_indexes`:
`if time not in self.time_index: self.time_index[time] = []` followed by
`self.time_index[time].append(drone.id)`. -/
def timeIndexAdd (t : ℚ) (id : String) : List (ℚ × List String) → List (ℚ × List String)
  | [] => [(t, [id])]
  | (t1, b) :: rest => if t1 = t then (t1, b ++ [id]) :: rest else (t1, b) :: timeIndexAdd t id rest

/-- The bucket of mission ids stored under boundary instant `t` of a time
index (empty when the instant is not a key), the observation
`self.time_index[time]` reads. -/
def timeIndexBucket (t : ℚ) : List (ℚ × List String) → List String
  | [] => []
  | (t1, b) :: rest => if t1 = t then b else timeIndexBucket t rest

/-- `_update_indexes` (deconfliction.py): extend the spatial point store with the
drone's waypoints and append the drone id to the buckets of its start and end
instants. -/
def update_indexes (S : DeconflictionSystem) (d : Drone) : DeconflictionSystem :=
  let pts := d.waypoints.map (fun wp => (wp.x, wp.y, wp.z))
  let spatial := match S.spatial_index with
    | none => some pts
    | some old => some (old ++ pts)
  { S with
    spatial_index := spatial
    time_index := timeIndexAdd d.end_time d.id (timeIndexAdd d.start_time d.id S.time_index) }

/-- `add_simulated_drone` (deconfliction.py): raise when the registry already
holds `max_simulated_drones` entries, else insert into the registry (silently
overwriting an entry with the same id) and update both indexes. -/
def add_simulated_drone (S : DeconflictionSystem) (d : Drone) :
    Except String DeconflictionSystem :=
  if S.max_simulated_drones ≤ S.simulated_drones.length then
    Except.error ("Maximum number of drones (" ++ toString S.max_simulated_drones ++ ") exceeded")
  else
    Except.ok (update_indexes
      { S with simulated_drones := dictInsert d.id d S.simulated_drones } d)

/-- Squared Euclidean distance between two waypoints, the radicand the source
computes in `_check_point_conflict`. -/
def distanceSq (wp1 wp2 : Waypoint) : ℚ :=
  (wp1.x - wp2.x) * (wp1.x - wp2.x) + (wp1.y - wp2.y) * (wp1.y - wp2.y) +
    (wp1.z - wp2.z) * (wp1.z - wp2.z)

/-- `_check_point_conflict` (deconfliction.py): the source tests
`sqrt(dx²+dy²+dz²) < safety_buffer` over the reals; for rational data this is
equivalent to `0 < safety_buffer ∧ dx²+dy²+dz² < safety_buffer²`, the
executable form used here (the equivalence with the square-root comparison is
proved in the spatial-test theorem). -/
def check_point_conflict (S : DeconflictionSystem) (wp1 wp2 : Waypoint) : Bool :=
  decide (0 < S.safety_buffer) &&
    decide (distanceSq wp1 wp2 < S.safety_buffer * S.safety_buffer)

/-- Cache key `f"spatial_{primary.id}_{simulated.id}"`. -/
def spatialKey (pid sid : String) : String :=
  "spatial_" ++ pid ++ "_" ++ sid

/-- Cache key `f"temporal_{primary.id}_{simulated.id}"`. -/
def temporalKey (pid sid : String) : String :=
  "temporal_" ++ pid ++ "_" ++ sid

/-- The double loop of `_check_spatial_conflict`: start from `conflicts = []`
and, for every `wp1` of the primary and every `wp2` of the candidate, append a
`ConflictPoint` at `wp1`'s coordinates when the pair is closer than the buffer. -/
def spatialCore (S : DeconflictionSystem) (p s : Drone) : List ConflictPoint :=
  p.waypoints.foldl
    (fun acc wp1 =>
      s.waypoints.foldl
        (fun acc2 wp2 =>
          if check_point_conflict S wp1 wp2 then
            acc2 ++ [{ drone_id := s.id
                       point := (wp1.x, wp1.y, wp1.z)
                       type := "spatial"
                       severity := "high" }]
          else acc2)
        acc)
    []

/-- `_check_spatial_conflict` (deconfliction.py): return the cached list when
the key is present, else run the double loop and cache its result.  A
`spatial_*` key is never bound to a `.temporal` value (the key prefixes
differ), so that branch is unreachable for states the operations build; it is
mapped to the empty list. -/
def check_spatial_conflict (S : DeconflictionSystem) (p s : Drone) :
    List ConflictPoint × DeconflictionSystem :=
  match dictLookup (spatialKey p.id s.id) S.conflict_cache with
  | some (CacheVal.spatial pts) => (pts, S)
  | some (CacheVal.temporal _) => ([], S)
  | none =>
    let conflicts := spatialCore S p s
    (conflicts,
     { S with conflict_cache :=
         dictInsert (spatialKey p.id s.id) (CacheVal.spatial conflicts) S.conflict_cache })

/-- The interval-overlap formula of `_check_temporal_conflict`:
`not (t1_end <= t2_start or t1_start >= t2_end)`. -/
def temporalOverlap (p s : Drone) : Bool :=
  !(decide (p.end_time ≤ s.start_time) || decide (p.start_time ≥ s.end_time))

/-- `_check_temporal_conflict` (deconfliction.py): return the cached value when
the key is present, else evaluate the overlap formula and cache it.  A cached
`.spatial` list under a `temporal_*` key (unreachable, see
`check_spatial_conflict`) would be used for its Python truthiness: non-empty. -/
def check_temporal_conflict (S : DeconflictionSystem) (p s : Drone) :
    Bool × DeconflictionSystem :=
  match dictLookup (temporalKey p.id s.id) S.conflict_cache with
  | some (CacheVal.temporal b) => (b, S)
  | some (CacheVal.spatial pts) => (!pts.isEmpty, S)
  | none =>
    let conflict := temporalOverlap p s
    (conflict,
     { S with conflict_cache :=
         dictInsert (temporalKey p.id s.id) (CacheVal.temporal conflict) S.conflict_cache })

/-- The `performance` sub-dictionary of a validation result. -/
structure Performance where
  spatial_checks : Nat
  temporal_checks : Nat
  cache_hits : Nat
  total_drones : Nat
  validation_time : Option ℚ
deriving DecidableEq, Repr

/-- One entry of the `conflicts` list of a validation result. -/
structure ConflictEntry where
  conflicting_drone : String
  conflict_locations : List ConflictPoint
  overlap_start : ℚ
  overlap_end : ℚ
deriving DecidableEq, Repr

/-- The dictionary `validate_mission` returns. -/
structure VResult where
  status : String
  conflicts : List ConflictEntry
  performance : Performance
deriving DecidableEq, Repr

/-- Candidate gathering in `validate_mission`: every id bucketed under a
time-index boundary instant inside `[start_time, end_time]` (both inclusive),
deduplicated by `list(set(...))`. -/
def relevant_drones (S : DeconflictionSystem) (p : Drone) : List String :=
  (((S.time_index.filter
      (fun tb => decide (p.start_time ≤ tb.1) && decide (tb.1 ≤ p.end_time))).flatMap
    (fun tb => tb.2))).dedup

/-- The per-candidate loop of `validate_mission`: look the candidate up in the
registry (a missing key would raise `KeyError`, modelled by `none`), count a
temporal check, and on temporal overlap count a spatial check and record any
spatial conflicts. -/
def validateLoop (p : Drone) :
    List String → VResult × DeconflictionSystem → Option (VResult × DeconflictionSystem)
  | [], acc => some acc
  | drone_id :: rest, (res, S) =>
    match dictLookup drone_id S.simulated_drones with
    | none => none
    | some simulated =>
      let res1 := { res with performance :=
        { res.performance with temporal_checks := res.performance.temporal_checks + 1 } }
      let tcPair := check_temporal_conflict S p simulated
      if tcPair.1 then
        let res2 := { res1 with performance :=
          { res1.performance with spatial_checks := res1.performance.spatial_checks + 1 } }
        let scPair := check_spatial_conflict tcPair.2 p simulated
        let res3 :=
          if scPair.1.isEmpty then res2
          else
            { res2 with
              status := "conflict"
              conflicts := res2.conflicts ++
                [{ conflicting_drone := drone_id
                   conflict_locations := scPair.1
                   overlap_start := max p.start_time simulated.start_time
                   overlap_end := min p.end_time simulated.end_time }] }
        validateLoop p rest (res3, scPair.2)
      else
        validateLoop p rest (res1, tcPair.2)

/-- The `results` dictionary as initialized at the top of `validate_mission`:
status `clear`, no conflicts, all counters zero, `total_drones` the registry
size, no validation time yet. -/
def initialResults (S : DeconflictionSystem) : VResult :=
  { status := "clear"
    conflicts := []
    performance :=
      { spatial_checks := 0
        temporal_checks := 0
        cache_hits := 0
        total_drones := S.simulated_drones.length
        validation_time := none } }

/-- `validate_mission` (deconfliction.py).  `now1` is the `datetime.now()`
reading taken at entry and `now2` the one taken at the end.  The source binds
`start_time = datetime.now()` and then immediately rebinds
`start_time, end_time = primary_drone.get_time_range()`, so the recorded
`validation_time` is `now2 - primary.start_time`; `now1` is dead. -/
def validate_mission (S : DeconflictionSystem) (primary_drone : Drone)
    (now1 now2 : ℚ) : Option (VResult × DeconflictionSystem) :=
  let _ := now1
  let res0 : VResult := initialResults S
  let range := get_time_range primary_drone
  match validateLoop primary_drone (relevant_drones S primary_drone) (res0, S) with
  | none => none
  | some (res, S1) =>
    some ({ res with performance :=
      { res.performance with validation_time := some (now2 - range.1) } }, S1)

/-- All engine fields other than the conflict cache agree between two states. -/
def SameFrame (S1 S2 : DeconflictionSystem) : Prop :=
  S1.safety_buffer = S2.safety_buffer ∧
  S1.max_simulated_drones = S2.max_simulated_drones ∧
  S1.simulated_drones = S2.simulated_drones ∧
  S1.spatial_index = S2.spatial_index ∧
  S1.time_index = S2.time_index

/-- Cache containment: every binding of the first cache is a binding of the second. -/
def CacheLE (c1 c2 : List (String × CacheVal)) : Prop :=
  ∀ k v, dictLookup k c1 = some v → dictLookup k c2 = some v

/-- Truthiness of a cached value, as Python evaluates it in an `if`. -/
def cacheTruth : CacheVal → Bool
  | CacheVal.temporal b => b
  | CacheVal.spatial pts => !pts.isEmpty

/-- Spatial reading of a cached value. -/
def cacheList : CacheVal → List ConflictPoint
  | CacheVal.temporal _ => []
  | CacheVal.spatial pts => pts

/-- Every mission id bucketed anywhere in the temporal index is a key of the
registry mapping. -/
def IndexRegistered (S : DeconflictionSystem) : Prop :=
  ∀ tb ∈ S.time_index, ∀ id ∈ tb.2, (dictLookup id S.simulated_drones).isSome = true

/-- Engine states reachable from a freshly constructed system by any sequence
of (successful) registrations and validations. -/
inductive Reachable : DeconflictionSystem → Prop where
  | init (safety_buffer : ℚ) (max_simulated_drones : Nat) :
      Reachable (initSystem safety_buffer max_simulated_drones)
  | register {S S1 : DeconflictionSystem} {d : Drone} :
      Reachable S → add_simulated_drone S d = Except.ok S1 → Reachable S1
  | validate {S S1 : DeconflictionSystem} {p : Drone} {now1 now2 : ℚ} {r : VResult} :
      Reachable S → validate_mission S p now1 now2 = some (r, S1) → Reachable S1

/-! Concrete example inputs used by witnesses and counterexamples. -/

/-- A waypoint at the origin. -/
def wp0 : Waypoint := { x := 0, y := 0, z := 0, timestamp := 0 }

/-- Primary mission `a`: one waypoint at the origin, window `[0, 10]`. -/
def droneA : Drone := droneInit "a" [wp0] 0 10

/-- Simulated mission `b`: one waypoint 5 m from the origin, window `[0, 10]`. -/
def droneB : Drone := droneInit "b" [{ x := 3, y := 4, z := 0, timestamp := 0 }] 0 10

/-- A second mission with the same id `b` as `droneB` but other data. -/
def droneB2 : Drone := droneInit "b" [wp0] 5 20

/-- A fresh engine with the default configuration. -/
def sys0 : DeconflictionSystem := initSystem 10 1000

/-- The engine after registering `droneB`. -/
def sysB : DeconflictionSystem := (add_simulated_drone sys0 droneB).toOption.getD sys0

/-- A throwaway validation result, used as a `getD` fallback below. -/
def emptyVResult : VResult :=
  { status := ""
    conflicts := []
    performance :=
      { spatial_checks := 0
        temporal_checks := 0
        cache_hits := 0
        total_drones := 0
        validation_time := none } }

/-- First validation of `droneA` against `sysB` (entry clock 100, end clock 101). -/
def vrs1 : VResult × DeconflictionSystem :=
  (validate_mission sysB droneA 100 101).getD (emptyVResult, sys0)

/-- Second validation of `droneA`, from the state `vrs1` left behind
(entry clock 200, end clock 201). -/
def vrs2 : VResult × DeconflictionSystem :=
  (validate_mission vrs1.2 droneA 200 201).getD (emptyVResult, sys0)

/-! Theorems. -/

/-- C1: the claim says constructing a Mission raises `InvalidMission` on an
empty waypoint list, on `end_time ≤ start_time`, or on out-of-bounds
coordinates.  The code cannot do so: `Drone` defines its own `__init__`, which
suppresses the dataclass-generated initializer, so `__post_init__` — where all
three checks live — is never executed and construction succeeds on every
input.  Evaluated here at inputs violating each precondition: construction
yields a `Drone` value while the (dead) validation body would have rejected it. -/
theorem C1_construction_skips_validation :
    droneInit "d" [] 0 0 =
      { id := "d", waypoints := [], start_time := 0, end_time := 0 }
  ∧ dronePostInit (droneInit "d" [] 0 0) =
      Except.error "A drone must have at least one waypoint"
  ∧ droneInit "e" [{ x := 20000, y := 0, z := 0, timestamp := 0 }] 0 1 =
      { id := "e", waypoints := [{ x := 20000, y := 0, z := 0, timestamp := 0 }],
        start_time := 0, end_time := 1 }
  ∧ dronePostInit (droneInit "e" [{ x := 20000, y := 0, z := 0, timestamp := 0 }] 0 1) =
      Except.error "Invalid coordinates for waypoint"
  ∧ dronePostInit (droneInit "f" [wp0] 5 5) =
      Except.error "End time must be after start time" :=
  ⟨rfl, rfl, rfl, rfl, rfl⟩

/-- C4: registration fails with the capacity error exactly when the registry
already holds `max_simulated_drones` entries (the code tests `len >= max`, and
the length never exceeds the maximum), succeeds whenever it holds fewer, and
the default maximum is 1000. -/
theorem C4_capacity (S : DeconflictionSystem) (d : Drone) :
    initSystem.max_simulated_drones = 1000
  ∧ (S.simulated_drones.length < S.max_simulated_drones →
      ∃ S1, add_simulated_drone S d = Except.ok S1)
  ∧ (S.max_simulated_drones ≤ S.simulated_drones.length →
      add_simulated_drone S d =
        Except.error ("Maximum number of drones ("
          ++ toString S.max_simulated_drones ++ ") exceeded")) := by
  refine ⟨rfl, fun h => ?_, fun h => ?_⟩
  · unfold add_simulated_drone
    rw [if_neg (by omega)]
    exact ⟨_, rfl⟩
  · unfold add_simulated_drone
    rw [if_pos h]

/-- C4 witness: on a fresh default engine (0 of 1000 slots used) registration
succeeds; on an engine configured with maximum 0 it fails with the capacity
error. -/
theorem C4_capacity_witness :
    (∃ S1, add_simulated_drone (initSystem 10 1000) droneA = Except.ok S1)
  ∧ add_simulated_drone (initSystem 10 0) droneA =
      Except.error ("Maximum number of drones ("
        ++ toString (initSystem 10 0).max_simulated_drones ++ ") exceeded") :=
  ⟨(C4_capacity (initSystem 10 1000) droneA).2.1 (by decide),
   (C4_capacity (initSystem 10 0) droneA).2.2 (by decide)⟩

/-- C6: the temporal-overlap formula computed by `_check_temporal_conflict` is
exactly `not (primary.end ≤ candidate.start or primary.start ≥ candidate.end)`,
it is symmetric in the two missions, and when the cache holds no entry for the
pair the method returns exactly this formula. -/
theorem C6_temporal_overlap (A B : Drone) :
    (temporalOverlap A B = true ↔
      ¬(A.end_time ≤ B.start_time ∨ A.start_time ≥ B.end_time))
  ∧ temporalOverlap A B = temporalOverlap B A
  ∧ (∀ S : DeconflictionSystem,
      dictLookup (temporalKey A.id B.id) S.conflict_cache = none →
        (check_temporal_conflict S A B).1 = temporalOverlap A B) := by
  refine ⟨?_, ?_, fun S h => ?_⟩
  · simp [temporalOverlap, not_or]
  · simp only [temporalOverlap, ge_iff_le]
    rw [Bool.or_comm]
  · simp [check_temporal_conflict, h]

/-- C6 witness: for the concrete missions `droneA`, `droneB` and a fresh
engine (empty cache) the method output coincides with the overlap formula, and
the formula value is symmetric. -/
theorem C6_temporal_overlap_witness :
    (check_temporal_conflict sys0 droneA droneB).1 = temporalOverlap droneA droneB :=
  (C6_temporal_overlap droneA droneB).2.2 sys0 rfl

/-- Membership in the gathered candidate list: some boundary instant of the
temporal index lies inside the primary's window (inclusive) and has the id in
its bucket. -/
theorem mem_relevant_drones (S : DeconflictionSystem) (p : Drone) (id : String) :
    id ∈ relevant_drones S p ↔
      ∃ t bucket, (t, bucket) ∈ S.time_index ∧
        p.start_time ≤ t ∧ t ≤ p.end_time ∧ id ∈ bucket := by
  simp only [relevant_drones, List.mem_dedup, List.mem_flatMap, List.mem_filter,
    Bool.and_eq_true, decide_eq_true_eq]
  constructor
  · rintro ⟨⟨t, bucket⟩, ⟨hmem, h1, h2⟩, hid⟩
    exact ⟨t, bucket, hmem, h1, h2, hid⟩
  · rintro ⟨t, bucket, hmem, h1, h2, hid⟩
    exact ⟨⟨t, bucket⟩, ⟨hmem, h1, h2⟩, hid⟩

/-- C7: membership in the candidate list `validate_mission` iterates over is
exactly: some time-index boundary instant `t` with
`primary.start_time ≤ t ≤ primary.end_time` (inclusive on both ends) has the
id in its bucket; and the list is deduplicated.  Hence no other registered
mission is examined. -/
theorem C7_candidate_set (S : DeconflictionSystem) (p : Drone) :
    (∀ id : String,
        id ∈ relevant_drones S p ↔
          ∃ t bucket, (t, bucket) ∈ S.time_index ∧
            p.start_time ≤ t ∧ t ≤ p.end_time ∧ id ∈ bucket)
  ∧ (relevant_drones S p).Nodup :=
  ⟨fun id => mem_relevant_drones S p id, List.nodup_dedup _⟩

/-- Folding a conditional append over a list collects exactly the filtered,
mapped elements, in order, after the accumulator. -/
theorem foldl_if_append {α γ : Type} (cond : α → Bool) (g : α → γ) :
    ∀ (l : List α) (acc : List γ),
      l.foldl (fun a x => if cond x then a ++ [g x] else a) acc
        = acc ++ (l.filter cond).map g := by
  intro l
  induction l with
  | nil => intro acc; simp
  | cons x xs ih =>
    intro acc
    by_cases h : cond x
    · simp [List.foldl_cons, h, ih, List.filter_cons]
    · simp [List.foldl_cons, h, ih, List.filter_cons]

/-- The nested waypoint loops of `_check_spatial_conflict` produce, for each
primary waypoint in order, one conflict point per candidate waypoint within
the buffer, appended after the accumulator. -/
theorem spatialCore_foldl_eq (S : DeconflictionSystem) (s : Drone) :
    ∀ (ws : List Waypoint) (acc : List ConflictPoint),
      ws.foldl
        (fun acc wp1 =>
          s.waypoints.foldl
            (fun acc2 wp2 =>
              if check_point_conflict S wp1 wp2 then
                acc2 ++ [{ drone_id := s.id
                           point := (wp1.x, wp1.y, wp1.z)
                           type := "spatial"
                           severity := "high" }]
              else acc2)
            acc)
        acc
      = acc ++ ws.flatMap
          (fun wp1 =>
            (s.waypoints.filter (fun wp2 => check_point_conflict S wp1 wp2)).map
              (fun _ => { drone_id := s.id
                          point := (wp1.x, wp1.y, wp1.z)
                          type := "spatial"
                          severity := "high" })) := by
  intro ws
  induction ws with
  | nil => intro acc; simp
  | cons wp1 rest ih =>
    intro acc
    rw [List.foldl_cons, foldl_if_append, ih, List.flatMap_cons, List.append_assoc]

/-- C5: first conjunct — `_check_point_conflict` holds exactly when the real
Euclidean distance `sqrt(dx²+dy²+dz²)` is strictly below the safety buffer;
second conjunct — the spatial test is the full waypoint cross product in loop
order, emitting one severity-`high` conflict point at the primary waypoint's
coordinates per conflicting pair (all pairs collected, no early exit); third
conjunct — a distance exactly equal to the buffer is not a conflict. -/
theorem C5_spatial_test (S : DeconflictionSystem) (p s : Drone) :
    (∀ wp1 wp2 : Waypoint,
        check_point_conflict S wp1 wp2 = true ↔
          Real.sqrt ((distanceSq wp1 wp2 : ℚ) : ℝ) < ((S.safety_buffer : ℚ) : ℝ))
  ∧ spatialCore S p s =
      p.waypoints.flatMap
        (fun wp1 =>
          (s.waypoints.filter (fun wp2 => check_point_conflict S wp1 wp2)).map
            (fun _ => { drone_id := s.id
                        point := (wp1.x, wp1.y, wp1.z)
                        type := "spatial"
                        severity := "high" }))
  ∧ (∀ wp1 wp2 : Waypoint,
        Real.sqrt ((distanceSq wp1 wp2 : ℚ) : ℝ) = ((S.safety_buffer : ℚ) : ℝ) →
          check_point_conflict S wp1 wp2 = false) := by
  have key : ∀ wp1 wp2 : Waypoint,
      check_point_conflict S wp1 wp2 = true ↔
        Real.sqrt ((distanceSq wp1 wp2 : ℚ) : ℝ) < ((S.safety_buffer : ℚ) : ℝ) := by
    intro wp1 wp2
    have hd : (0 : ℝ) ≤ ((distanceSq wp1 wp2 : ℚ) : ℝ) := by
      have h0 : (0 : ℚ) ≤ distanceSq wp1 wp2 := by
        unfold distanceSq
        have h1 := mul_self_nonneg (wp1.x - wp2.x)
        have h2 := mul_self_nonneg (wp1.y - wp2.y)
        have h3 := mul_self_nonneg (wp1.z - wp2.z)
        linarith
      exact_mod_cast h0
    constructor
    · intro h
      rw [check_point_conflict, Bool.and_eq_true, decide_eq_true_eq, decide_eq_true_eq] at h
      obtain ⟨hb, hlt⟩ := h
      have hb1 : (0 : ℝ) < ((S.safety_buffer : ℚ) : ℝ) := by exact_mod_cast hb
      rw [Real.sqrt_lt' hb1, pow_two]
      exact_mod_cast hlt
    · intro h
      have hb1 : (0 : ℝ) < ((S.safety_buffer : ℚ) : ℝ) :=
        lt_of_le_of_lt (Real.sqrt_nonneg _) h
      have hlt : ((distanceSq wp1 wp2 : ℚ) : ℝ) < ((S.safety_buffer : ℚ) : ℝ) ^ 2 :=
        (Real.sqrt_lt' hb1).mp h
      rw [pow_two] at hlt
      rw [check_point_conflict, Bool.and_eq_true, decide_eq_true_eq, decide_eq_true_eq]
      exact ⟨by exact_mod_cast hb1, by exact_mod_cast hlt⟩
  refine ⟨key, ?_, fun wp1 wp2 heq => ?_⟩
  · unfold spatialCore
    rw [spatialCore_foldl_eq, List.nil_append]
  · cases hc : check_point_conflict S wp1 wp2 with
    | false => rfl
    | true => exact absurd ((key wp1 wp2).mp hc) (by rw [heq]; exact lt_irrefl _)

theorem sameFrame_refl (S : DeconflictionSystem) : SameFrame S S :=
  ⟨rfl, rfl, rfl, rfl, rfl⟩

theorem sameFrame_trans {S1 S2 S3 : DeconflictionSystem}
    (h1 : SameFrame S1 S2) (h2 : SameFrame S2 S3) : SameFrame S1 S3 := by
  obtain ⟨a1, b1, c1, d1, e1⟩ := h1
  obtain ⟨a2, b2, c2, d2, e2⟩ := h2
  exact ⟨a1.trans a2, b1.trans b2, c1.trans c2, d1.trans d2, e1.trans e2⟩

/-- `_check_temporal_conflict` touches no engine field but the cache. -/
theorem check_temporal_sameFrame (S : DeconflictionSystem) (p s : Drone) :
    SameFrame S (check_temporal_conflict S p s).2 := by
  unfold check_temporal_conflict
  cases h : dictLookup (temporalKey p.id s.id) S.conflict_cache with
  | none => exact ⟨rfl, rfl, rfl, rfl, rfl⟩
  | some v => cases v <;> exact ⟨rfl, rfl, rfl, rfl, rfl⟩

/-- `_check_spatial_conflict` touches no engine field but the cache. -/
theorem check_spatial_sameFrame (S : DeconflictionSystem) (p s : Drone) :
    SameFrame S (check_spatial_conflict S p s).2 := by
  unfold check_spatial_conflict
  cases h : dictLookup (spatialKey p.id s.id) S.conflict_cache with
  | none => exact ⟨rfl, rfl, rfl, rfl, rfl⟩
  | some v => cases v <;> exact ⟨rfl, rfl, rfl, rfl, rfl⟩

/-- The candidate loop of `validate_mission` touches no engine field but the cache. -/
theorem validateLoop_sameFrame (p : Drone) :
    ∀ (L : List String) (res : VResult) (S : DeconflictionSystem) (r : VResult)
      (S1 : DeconflictionSystem),
      validateLoop p L (res, S) = some (r, S1) → SameFrame S S1 := by
  intro L
  induction L with
  | nil =>
    intro res S r S1 h
    simp only [validateLoop, Option.some_inj] at h
    rw [(Prod.mk.injEq .. ).mp h |>.2]
    exact sameFrame_refl _
  | cons id rest ih =>
    intro res S r S1 h
    unfold validateLoop at h
    cases hl : dictLookup id S.simulated_drones with
    | none => rw [hl] at h; cases h
    | some sim =>
      rw [hl] at h
      simp only at h
      by_cases htc : (check_temporal_conflict S p sim).1 = true
      · rw [if_pos htc] at h
        exact sameFrame_trans (check_temporal_sameFrame S p sim)
          (sameFrame_trans (check_spatial_sameFrame _ p sim) (ih _ _ _ _ h))
      · rw [if_neg htc] at h
        exact sameFrame_trans (check_temporal_sameFrame S p sim) (ih _ _ _ _ h)

theorem cacheLE_refl (c : List (String × CacheVal)) : CacheLE c c :=
  fun _ _ h => h

theorem cacheLE_trans {c1 c2 c3 : List (String × CacheVal)}
    (h1 : CacheLE c1 c2) (h2 : CacheLE c2 c3) : CacheLE c1 c3 :=
  fun k v h => h2 k v (h1 k v h)

/-- Looking a key up after a dict write: the written value under the written
key, the old answer elsewhere. -/
theorem dictLookup_dictInsert {α : Type} (a k : String) (v : α) (l : List (String × α)) :
    dictLookup a (dictInsert k v l) = if k = a then some v else dictLookup a l := by
  induction l with
  | nil =>
    by_cases h : k = a <;> simp [dictInsert, dictLookup, h]
  | cons hd tl ih =>
    obtain ⟨k1, v1⟩ := hd
    by_cases h1 : k1 = k
    · subst h1
      by_cases h2 : k1 = a <;> simp [dictInsert, dictLookup, h2]
    · by_cases h2 : k1 = a
      · subst h2
        have : ¬ k = k1 := fun hk => h1 hk.symm
        simp [dictInsert, dictLookup, h1, this]
      · simp [dictInsert, dictLookup, h1, h2, ih]

/-- Writing an absent key preserves every existing binding. -/
theorem cacheLE_insert_absent (k : String) (v : CacheVal)
    (c : List (String × CacheVal)) (habs : dictLookup k c = none) :
    CacheLE c (dictInsert k v c) := by
  intro k1 v1 h
  rw [dictLookup_dictInsert]
  by_cases hk : k = k1
  · subst hk; rw [habs] at h; cases h
  · rw [if_neg hk]; exact h

/-- The cache only grows across `_check_temporal_conflict`. -/
theorem check_temporal_cacheLE (S : DeconflictionSystem) (p s : Drone) :
    CacheLE S.conflict_cache (check_temporal_conflict S p s).2.conflict_cache := by
  unfold check_temporal_conflict
  cases h : dictLookup (temporalKey p.id s.id) S.conflict_cache with
  | none => exact cacheLE_insert_absent _ _ _ h
  | some v => cases v <;> exact cacheLE_refl _

/-- The cache only grows across `_check_spatial_conflict`. -/
theorem check_spatial_cacheLE (S : DeconflictionSystem) (p s : Drone) :
    CacheLE S.conflict_cache (check_spatial_conflict S p s).2.conflict_cache := by
  unfold check_spatial_conflict
  cases h : dictLookup (spatialKey p.id s.id) S.conflict_cache with
  | none => exact cacheLE_insert_absent _ _ _ h
  | some v => cases v <;> exact cacheLE_refl _

/-- The cache only grows across the candidate loop. -/
theorem validateLoop_cacheLE (p : Drone) :
    ∀ (L : List String) (res : VResult) (S : DeconflictionSystem) (r : VResult)
      (S1 : DeconflictionSystem),
      validateLoop p L (res, S) = some (r, S1) →
      CacheLE S.conflict_cache S1.conflict_cache := by
  intro L
  induction L with
  | nil =>
    intro res S r S1 h
    simp only [validateLoop, Option.some_inj] at h
    rw [(Prod.mk.injEq .. ).mp h |>.2]
    exact cacheLE_refl _
  | cons id rest ih =>
    intro res S r S1 h
    unfold validateLoop at h
    cases hl : dictLookup id S.simulated_drones with
    | none => rw [hl] at h; cases h
    | some sim =>
      rw [hl] at h
      simp only at h
      by_cases htc : (check_temporal_conflict S p sim).1 = true
      · rw [if_pos htc] at h
        exact cacheLE_trans (check_temporal_cacheLE S p sim)
          (cacheLE_trans (check_spatial_cacheLE _ p sim) (ih _ _ _ _ h))
      · rw [if_neg htc] at h
        exact cacheLE_trans (check_temporal_cacheLE S p sim) (ih _ _ _ _ h)

/-- After `_check_temporal_conflict` runs, its key is bound in the cache and
the returned boolean is the truthiness of the bound value. -/
theorem check_temporal_run (S : DeconflictionSystem) (p s : Drone) :
    ∃ v : CacheVal,
      dictLookup (temporalKey p.id s.id)
          (check_temporal_conflict S p s).2.conflict_cache = some v
        ∧ (check_temporal_conflict S p s).1 = cacheTruth v := by
  unfold check_temporal_conflict
  cases h : dictLookup (temporalKey p.id s.id) S.conflict_cache with
  | none =>
    refine ⟨CacheVal.temporal (temporalOverlap p s), ?_, rfl⟩
    simp only
    rw [dictLookup_dictInsert, if_pos rfl]
  | some v => cases v <;> exact ⟨_, h, rfl⟩

/-- After `_check_spatial_conflict` runs, its key is bound in the cache and the
returned list is the spatial reading of the bound value. -/
theorem check_spatial_run (S : DeconflictionSystem) (p s : Drone) :
    ∃ v : CacheVal,
      dictLookup (spatialKey p.id s.id)
          (check_spatial_conflict S p s).2.conflict_cache = some v
        ∧ (check_spatial_conflict S p s).1 = cacheList v := by
  unfold check_spatial_conflict
  cases h : dictLookup (spatialKey p.id s.id) S.conflict_cache with
  | none =>
    refine ⟨CacheVal.spatial (spatialCore S p s), ?_, rfl⟩
    simp only
    rw [dictLookup_dictInsert, if_pos rfl]
  | some v => cases v <;> exact ⟨_, h, rfl⟩

/-- Re-running `_check_temporal_conflict` from any state whose cache contains
the first run's final cache is a pure cache hit: same boolean, state unchanged. -/
theorem check_temporal_stable (U S : DeconflictionSystem) (p s : Drone)
    (hle : CacheLE (check_temporal_conflict S p s).2.conflict_cache U.conflict_cache) :
    check_temporal_conflict U p s = ((check_temporal_conflict S p s).1, U) := by
  obtain ⟨v, hv, hb⟩ := check_temporal_run S p s
  have hU : dictLookup (temporalKey p.id s.id) U.conflict_cache = some v := hle _ _ hv
  rw [hb]
  unfold check_temporal_conflict
  rw [hU]
  cases v <;> rfl

/-- Re-running `_check_spatial_conflict` from any state whose cache contains
the first run's final cache is a pure cache hit: same list, state unchanged. -/
theorem check_spatial_stable (U S : DeconflictionSystem) (p s : Drone)
    (hle : CacheLE (check_spatial_conflict S p s).2.conflict_cache U.conflict_cache) :
    check_spatial_conflict U p s = ((check_spatial_conflict S p s).1, U) := by
  obtain ⟨v, hv, hb⟩ := check_spatial_run S p s
  have hU : dictLookup (spatialKey p.id s.id) U.conflict_cache = some v := hle _ _ hv
  rw [hb]
  unfold check_spatial_conflict
  rw [hU]
  cases v <;> rfl

/-- Re-running the candidate loop from any state with the same registry whose
cache contains the first run's final cache reproduces the first run's result
exactly and performs no state change at all. -/
theorem validateLoop_stable (p : Drone) :
    ∀ (L : List String) (res : VResult) (S : DeconflictionSystem) (r : VResult)
      (S1 U : DeconflictionSystem),
      validateLoop p L (res, S) = some (r, S1) →
      U.simulated_drones = S.simulated_drones →
      CacheLE S1.conflict_cache U.conflict_cache →
      validateLoop p L (res, U) = some (r, U) := by
  intro L
  induction L with
  | nil =>
    intro res S r S1 U h hreg hle
    simp only [validateLoop, Option.some_inj] at h ⊢
    have hp := (Prod.mk.injEq .. ).mp h
    rw [hp.1]
  | cons id rest ih =>
    intro res S r S1 U h hreg hle
    unfold validateLoop at h ⊢
    cases hl : dictLookup id S.simulated_drones with
    | none => rw [hl] at h; cases h
    | some sim =>
      rw [hl] at h
      rw [hreg, hl]
      simp only at h ⊢
      by_cases htc : (check_temporal_conflict S p sim).1 = true
      · rw [if_pos htc] at h
        have hTS : CacheLE (check_temporal_conflict S p sim).2.conflict_cache
            S1.conflict_cache :=
          cacheLE_trans (check_spatial_cacheLE _ p sim) (validateLoop_cacheLE p rest _ _ _ _ h)
        have hTU : CacheLE (check_temporal_conflict S p sim).2.conflict_cache
            U.conflict_cache := cacheLE_trans hTS hle
        have hSU : CacheLE
            (check_spatial_conflict (check_temporal_conflict S p sim).2 p sim).2.conflict_cache
            U.conflict_cache :=
          cacheLE_trans (validateLoop_cacheLE p rest _ _ _ _ h) hle
        rw [check_temporal_stable U S p sim hTU]
        simp only [htc, if_pos rfl]
        rw [check_spatial_stable U (check_temporal_conflict S p sim).2 p sim hSU]
        simp only
        apply ih _ _ r S1 U h
        · have f1 := check_temporal_sameFrame S p sim
          have f2 := check_spatial_sameFrame (check_temporal_conflict S p sim).2 p sim
          rw [hreg, f1.2.2.1, f2.2.2.1]
        · exact hle
      · rw [if_neg htc] at h
        have hTU : CacheLE (check_temporal_conflict S p sim).2.conflict_cache
            U.conflict_cache :=
          cacheLE_trans (validateLoop_cacheLE p rest _ _ _ _ h) hle
        rw [check_temporal_stable U S p sim hTU]
        have htc2 : ¬ ((check_temporal_conflict S p sim).1 , U).1 = true := htc
        rw [if_neg htc2]
        apply ih _ _ r S1 U h
        · have f1 := check_temporal_sameFrame S p sim
          rw [hreg, f1.2.2.1]
        · exact hle

/-- The candidate loop never touches the `cache_hits` counter. -/
theorem validateLoop_cache_hits (p : Drone) :
    ∀ (L : List String) (res : VResult) (S : DeconflictionSystem) (r : VResult)
      (S1 : DeconflictionSystem),
      validateLoop p L (res, S) = some (r, S1) →
      r.performance.cache_hits = res.performance.cache_hits := by
  intro L
  induction L with
  | nil =>
    intro res S r S1 h
    simp only [validateLoop, Option.some_inj] at h
    rw [← ((Prod.mk.injEq .. ).mp h).1]
  | cons id rest ih =>
    intro res S r S1 h
    unfold validateLoop at h
    cases hl : dictLookup id S.simulated_drones with
    | none => rw [hl] at h; cases h
    | some sim =>
      rw [hl] at h
      simp only at h
      by_cases htc : (check_temporal_conflict S p sim).1 = true
      · rw [if_pos htc] at h
        by_cases hsc :
            (check_spatial_conflict (check_temporal_conflict S p sim).2 p sim).1.isEmpty = true
        · rw [if_pos hsc] at h
          have hh := ih _ _ _ _ h
          exact hh
        · rw [if_neg hsc] at h
          have hh := ih _ _ _ _ h
          exact hh
      · rw [if_neg htc] at h
        have hh := ih _ _ _ _ h
        exact hh

/-- `validate_mission` is the candidate loop run from the initial results
dictionary, with `validation_time` patched to `now2` minus the primary
mission's `start_time` (the wall-clock entry reading was shadowed). -/
theorem validate_mission_eq (S : DeconflictionSystem) (p : Drone) (now1 now2 : ℚ) :
    validate_mission S p now1 now2 =
      (validateLoop p (relevant_drones S p) (initialResults S, S)).map
        (fun rs =>
          ({ rs.1 with performance :=
              { rs.1.performance with validation_time := some (now2 - p.start_time) } },
           rs.2)) := by
  unfold validate_mission
  simp only
  cases h : validateLoop p (relevant_drones S p) (initialResults S, S) with
  | none => rfl
  | some rs =>
    obtain ⟨res, S1⟩ := rs
    rfl

/-- Frame property of `validate_mission`: only the conflict cache changes, and
it only grows. -/
theorem validate_mission_frame (S : DeconflictionSystem) (p : Drone) (now1 now2 : ℚ)
    (r : VResult) (S1 : DeconflictionSystem)
    (h : validate_mission S p now1 now2 = some (r, S1)) :
    S1.simulated_drones = S.simulated_drones
  ∧ S1.time_index = S.time_index
  ∧ S1.spatial_index = S.spatial_index
  ∧ S1.safety_buffer = S.safety_buffer
  ∧ S1.max_simulated_drones = S.max_simulated_drones
  ∧ CacheLE S.conflict_cache S1.conflict_cache := by
  rw [validate_mission_eq] at h
  cases hl : validateLoop p (relevant_drones S p) (initialResults S, S) with
  | none => rw [hl] at h; cases h
  | some rs =>
    obtain ⟨res, S1x⟩ := rs
    rw [hl] at h
    have hq := Option.some_inj.mp h
    have hS : S1x = S1 := congrArg Prod.snd hq
    subst hS
    have frame := validateLoop_sameFrame p _ _ _ _ _ hl
    have hc := validateLoop_cacheLE p _ _ _ _ _ hl
    exact ⟨frame.2.2.1.symm, frame.2.2.2.2.symm, frame.2.2.2.1.symm,
      frame.1.symm, frame.2.1.symm, hc⟩

/-- C10: `validate_mission` leaves the registry mapping, the temporal index,
the spatial index, the safety buffer and the capacity limit unchanged; the
conflict cache is the only field it may mutate, and even there it only adds
entries (every pre-existing binding survives unchanged).  The registry
equality in particular means no registered mission value is mutated, and the
primary mission is a pure input. -/
theorem C10_validate_frame (S : DeconflictionSystem) (p : Drone) (now1 now2 : ℚ)
    (r : VResult) (S1 : DeconflictionSystem)
    (h : validate_mission S p now1 now2 = some (r, S1)) :
    S1.simulated_drones = S.simulated_drones
  ∧ S1.time_index = S.time_index
  ∧ S1.spatial_index = S.spatial_index
  ∧ S1.safety_buffer = S.safety_buffer
  ∧ S1.max_simulated_drones = S.max_simulated_drones
  ∧ CacheLE S.conflict_cache S1.conflict_cache :=
  validate_mission_frame S p now1 now2 r S1 h

/-- C10 witness: the concrete validation of `droneA` against `sysB` changes
nothing but the cache. -/
theorem C10_validate_frame_witness :
    vrs1.2.simulated_drones = sysB.simulated_drones
  ∧ vrs1.2.time_index = sysB.time_index
  ∧ vrs1.2.spatial_index = sysB.spatial_index
  ∧ vrs1.2.safety_buffer = sysB.safety_buffer
  ∧ vrs1.2.max_simulated_drones = sysB.max_simulated_drones
  ∧ CacheLE sysB.conflict_cache vrs1.2.conflict_cache :=
  C10_validate_frame sysB droneA 100 101 vrs1.1 vrs1.2 (by with_unfolding_all rfl)

/-- C8: the claim says `validation_time` records the wall-clock time spent in
the call (end reading minus start reading) and is independent of the primary
mission's `start_time`.  The code does the opposite: the local variable
holding the entry clock reading is immediately shadowed by the tuple
unpacking `start_time, end_time = primary_drone.get_time_range()`, so the
recorded value is the end clock reading minus the mission's `start_time` —
dependent on the mission and independent of the entry reading `now1`. -/
theorem C8_validation_time_bug (S : DeconflictionSystem) (p : Drone)
    (now1 now2 : ℚ) (r : VResult) (S1 : DeconflictionSystem)
    (h : validate_mission S p now1 now2 = some (r, S1)) :
    r.performance.validation_time = some (now2 - p.start_time) := by
  rw [validate_mission_eq] at h
  cases hl : validateLoop p (relevant_drones S p) (initialResults S, S) with
  | none => rw [hl] at h; cases h
  | some rs =>
    obtain ⟨res, S1x⟩ := rs
    rw [hl] at h
    have hq := Option.some_inj.mp h
    have hr : _ = r := congrArg Prod.fst hq
    rw [← hr]

/-- C8 witness: validating `droneA` (mission start 0) with entry clock 100 and
end clock 101 records `101 - 0 = 101`, not the elapsed `101 - 100 = 1`. -/
theorem C8_validation_time_bug_witness :
    vrs1.1.performance.validation_time = some (101 - droneA.start_time)
  ∧ (101 - droneA.start_time : ℚ) ≠ 101 - 100 :=
  ⟨C8_validation_time_bug sysB droneA 100 101 vrs1.1 vrs1.2 (by with_unfolding_all rfl),
   by with_unfolding_all decide⟩

/-- Writing an already-present key keeps the dict's length. -/
theorem dictInsert_length_mem {α : Type} (k : String) (v : α) (l : List (String × α))
    (h : k ∈ dictKeys l) : (dictInsert k v l).length = l.length := by
  induction l with
  | nil => simp [dictKeys] at h
  | cons hd tl ih =>
    obtain ⟨k1, v1⟩ := hd
    by_cases hk : k1 = k
    · simp [dictInsert, hk]
    · have h2 : k ∈ dictKeys tl := by
        simp only [dictKeys, List.map_cons, List.mem_cons] at h
        rcases h with h | h
        · exact absurd h.symm hk
        · exact h
      simp [dictInsert, hk, ih h2]

/-- Inserting into a time index appends the id at the end of the bucket of the
inserted instant. -/
theorem timeIndexBucket_add_self (t : ℚ) (id : String) :
    ∀ idx : List (ℚ × List String),
      timeIndexBucket t (timeIndexAdd t id idx) = timeIndexBucket t idx ++ [id] := by
  intro idx
  induction idx with
  | nil => simp [timeIndexAdd, timeIndexBucket]
  | cons hd tl ih =>
    obtain ⟨t1, b⟩ := hd
    by_cases ht : t1 = t
    · simp [timeIndexAdd, timeIndexBucket, ht]
    · simp [timeIndexAdd, timeIndexBucket, ht, ih]

/-- Inserting into a time index leaves every other instant's bucket unchanged. -/
theorem timeIndexBucket_add_other (t t' : ℚ) (id : String) (hne : t' ≠ t) :
    ∀ idx : List (ℚ × List String),
      timeIndexBucket t' (timeIndexAdd t id idx) = timeIndexBucket t' idx := by
  have hne2 : ¬ t = t' := fun h => hne h.symm
  intro idx
  induction idx with
  | nil => simp [timeIndexAdd, timeIndexBucket, hne2]
  | cons hd tl ih =>
    obtain ⟨t1, b⟩ := hd
    by_cases ht : t1 = t
    · have ht1 : ¬ t1 = t' := by rw [ht]; exact hne2
      simp [timeIndexAdd, timeIndexBucket, ht, ht1, hne2]
    · by_cases ht2 : t1 = t'
      · simp [timeIndexAdd, timeIndexBucket, ht, ht2, hne]
      · simp [timeIndexAdd, timeIndexBucket, ht, ht2, ih]

/-- C3 (amended): registering a mission whose id is already a registry key does
NOT fail with a duplicate-id error — no such check exists.  Provided capacity
is not yet reached it succeeds, silently overwrites the registry entry (the
registry size is unchanged), appends the id again at the end of the buckets of
its start and end boundary instants (twice into the one bucket when the two
instants coincide), and leaves the conflict cache untouched. -/
theorem C3_duplicate_overwrites (S : DeconflictionSystem) (d : Drone)
    (hdup : d.id ∈ dictKeys S.simulated_drones)
    (hcap : S.simulated_drones.length < S.max_simulated_drones) :
    ∃ S1, add_simulated_drone S d = Except.ok S1
      ∧ dictLookup d.id S1.simulated_drones = some d
      ∧ S1.simulated_drones.length = S.simulated_drones.length
      ∧ S1.conflict_cache = S.conflict_cache
      ∧ (d.start_time ≠ d.end_time →
           timeIndexBucket d.start_time S1.time_index
             = timeIndexBucket d.start_time S.time_index ++ [d.id]
         ∧ timeIndexBucket d.end_time S1.time_index
             = timeIndexBucket d.end_time S.time_index ++ [d.id])
      ∧ (d.start_time = d.end_time →
           timeIndexBucket d.end_time S1.time_index
             = timeIndexBucket d.end_time S.time_index ++ [d.id, d.id]) := by
  unfold add_simulated_drone
  rw [if_neg (by omega)]
  refine ⟨_, rfl, ?_, ?_, rfl, fun hne => ⟨?_, ?_⟩, fun heq => ?_⟩
  · show dictLookup d.id (dictInsert d.id d S.simulated_drones) = some d
    rw [dictLookup_dictInsert, if_pos rfl]
  · show (dictInsert d.id d S.simulated_drones).length = S.simulated_drones.length
    exact dictInsert_length_mem _ _ _ hdup
  · show timeIndexBucket d.start_time
        (timeIndexAdd d.end_time d.id (timeIndexAdd d.start_time d.id S.time_index))
      = timeIndexBucket d.start_time S.time_index ++ [d.id]
    rw [timeIndexBucket_add_other d.end_time d.start_time d.id hne,
      timeIndexBucket_add_self]
  · show timeIndexBucket d.end_time
        (timeIndexAdd d.end_time d.id (timeIndexAdd d.start_time d.id S.time_index))
      = timeIndexBucket d.end_time S.time_index ++ [d.id]
    rw [timeIndexBucket_add_self,
      timeIndexBucket_add_other d.start_time d.end_time d.id (fun h => hne h.symm)]
  · show timeIndexBucket d.end_time
        (timeIndexAdd d.end_time d.id (timeIndexAdd d.start_time d.id S.time_index))
      = timeIndexBucket d.end_time S.time_index ++ [d.id, d.id]
    rw [timeIndexBucket_add_self, heq, timeIndexBucket_add_self, List.append_assoc]
    rfl

/-- C3 witness: re-registering id `b` (already present in `sysB`) succeeds,
overwrites the registry entry, appends `b` again to the buckets of its two
(distinct) boundary instants and keeps the cache. -/
theorem C3_duplicate_overwrites_witness :
    ∃ S1, add_simulated_drone sysB droneB2 = Except.ok S1
      ∧ dictLookup droneB2.id S1.simulated_drones = some droneB2
      ∧ S1.simulated_drones.length = sysB.simulated_drones.length
      ∧ S1.conflict_cache = sysB.conflict_cache
      ∧ (droneB2.start_time ≠ droneB2.end_time →
           timeIndexBucket droneB2.start_time S1.time_index
             = timeIndexBucket droneB2.start_time sysB.time_index ++ [droneB2.id]
         ∧ timeIndexBucket droneB2.end_time S1.time_index
             = timeIndexBucket droneB2.end_time sysB.time_index ++ [droneB2.id])
      ∧ (droneB2.start_time = droneB2.end_time →
           timeIndexBucket droneB2.end_time S1.time_index
             = timeIndexBucket droneB2.end_time sysB.time_index
                 ++ [droneB2.id, droneB2.id]) :=
  C3_duplicate_overwrites sysB droneB2 (by decide) (by decide)

/-- C3 counterexample: with `droneB` registered under id `b`, registering
`droneB2` (same id `b`) returns success, the registry now maps `b` to the new
mission, and the temporal index gained the two new boundary instants 5 and 20
with `b` bucketed under them — the claimed `DuplicateId` failure leaving
registry, temporal index and cache unchanged does not happen. -/
theorem C3_counterexample :
    dictLookup "b" sysB.simulated_drones = some droneB
  ∧ (add_simulated_drone sysB droneB2).toOption.map
      (fun S1 => dictLookup "b" S1.simulated_drones) = some (some droneB2)
  ∧ sysB.time_index.length = 2
  ∧ (add_simulated_drone sysB droneB2).toOption.map
      (fun S1 => S1.time_index.length) = some 4
  ∧ timeIndexBucket 5 sysB.time_index = []
  ∧ (add_simulated_drone sysB droneB2).toOption.map
      (fun S1 => timeIndexBucket 5 S1.time_index) = some ["b"]
  ∧ (add_simulated_drone sysB droneB2).toOption.map
      (fun S1 => timeIndexBucket 20 S1.time_index) = some ["b"] := by
  exact ⟨rfl, rfl, rfl, rfl, rfl, rfl, rfl⟩

/-- Any id found in a bucket after a time-index insertion was either already
bucketed or is the inserted id. -/
theorem timeIndexAdd_mem (t : ℚ) (id : String) :
    ∀ (idx : List (ℚ × List String)), ∀ tb ∈ timeIndexAdd t id idx, ∀ x ∈ tb.2,
      (∃ tb1 ∈ idx, x ∈ tb1.2) ∨ x = id := by
  intro idx
  induction idx with
  | nil =>
    intro tb htb x hx
    simp only [timeIndexAdd, List.mem_singleton] at htb
    subst htb
    simp only [List.mem_singleton] at hx
    exact Or.inr hx
  | cons hd tl ih =>
    obtain ⟨t1, b⟩ := hd
    intro tb htb x hx
    by_cases ht : t1 = t
    · rw [timeIndexAdd, if_pos ht] at htb
      rcases List.mem_cons.mp htb with htb | htb
      · subst htb
        rcases List.mem_append.mp hx with hx | hx
        · exact Or.inl ⟨(t1, b), List.mem_cons_self _ _, hx⟩
        · exact Or.inr (List.mem_singleton.mp hx)
      · exact Or.inl ⟨tb, List.mem_cons_of_mem _ htb, hx⟩
    · rw [timeIndexAdd, if_neg ht] at htb
      rcases List.mem_cons.mp htb with htb | htb
      · subst htb
        exact Or.inl ⟨(t1, b), List.mem_cons_self _ _, hx⟩
      · rcases ih tb htb x hx with h | h
        · obtain ⟨tb1, h1, h2⟩ := h
          exact Or.inl ⟨tb1, List.mem_cons_of_mem _ h1, h2⟩
        · exact Or.inr h

/-- A successful registration preserves the index-ids-registered invariant. -/
theorem add_preserves_indexRegistered {S S1 : DeconflictionSystem} {d : Drone}
    (h : add_simulated_drone S d = Except.ok S1) (hInv : IndexRegistered S) :
    IndexRegistered S1 := by
  unfold add_simulated_drone at h
  by_cases hc : S.max_simulated_drones ≤ S.simulated_drones.length
  · rw [if_pos hc] at h; cases h
  · rw [if_neg hc] at h
    have hS1 : update_indexes
        { S with simulated_drones := dictInsert d.id d S.simulated_drones } d = S1 :=
      Except.ok.inj h
    subst hS1
    intro tb htb x hx
    have hti : ∀ tb2 ∈ timeIndexAdd d.start_time d.id S.time_index, ∀ y ∈ tb2.2,
        (∃ tb1 ∈ S.time_index, y ∈ tb1.2) ∨ y = d.id :=
      timeIndexAdd_mem d.start_time d.id S.time_index
    have htb2 : tb ∈ timeIndexAdd d.end_time d.id
        (timeIndexAdd d.start_time d.id S.time_index) := htb
    have hx2 := timeIndexAdd_mem d.end_time d.id _ tb htb2 x hx
    have hxS : (∃ tb1 ∈ S.time_index, x ∈ tb1.2) ∨ x = d.id := by
      rcases hx2 with h2 | h2
      · obtain ⟨tb1, h1, hmem⟩ := h2
        exact hti tb1 h1 x hmem
      · exact Or.inr h2
    show (dictLookup x (dictInsert d.id d S.simulated_drones)).isSome = true
    rw [dictLookup_dictInsert]
    by_cases hxd : d.id = x
    · rw [if_pos hxd]; rfl
    · rw [if_neg hxd]
      rcases hxS with ⟨tb1, h1, hmem⟩ | h2
      · exact hInv tb1 h1 x hmem
      · exact absurd h2.symm hxd

/-- A validation call preserves the index-ids-registered invariant. -/
theorem validate_preserves_indexRegistered {S S1 : DeconflictionSystem} {p : Drone}
    {now1 now2 : ℚ} {r : VResult}
    (h : validate_mission S p now1 now2 = some (r, S1)) (hInv : IndexRegistered S) :
    IndexRegistered S1 := by
  have frame := validate_mission_frame S p now1 now2 r S1 h
  intro tb htb x hx
  rw [frame.2.1] at htb
  rw [frame.1]
  exact hInv tb htb x hx

/-- Every reachable state satisfies the index-ids-registered invariant. -/
theorem reachable_indexRegistered {S : DeconflictionSystem} (h : Reachable S) :
    IndexRegistered S := by
  induction h with
  | init sb mx =>
    intro tb htb x hx
    cases htb
  | register hR hok ih => exact add_preserves_indexRegistered hok ih
  | validate hR hok ih => exact validate_preserves_indexRegistered hok ih

/-- If every candidate id is a registry key, the loop cannot raise `KeyError`. -/
theorem validateLoop_total (p : Drone) :
    ∀ (L : List String) (res : VResult) (S : DeconflictionSystem),
      (∀ id ∈ L, (dictLookup id S.simulated_drones).isSome = true) →
      (validateLoop p L (res, S)).isSome = true := by
  intro L
  induction L with
  | nil => intro res S h; rfl
  | cons id rest ih =>
    intro res S h
    unfold validateLoop
    have h1 := h id (List.mem_cons_self _ _)
    cases hl : dictLookup id S.simulated_drones with
    | none => rw [hl] at h1; cases h1
    | some sim =>
      simp only
      by_cases htc : (check_temporal_conflict S p sim).1 = true
      · rw [if_pos htc]
        apply ih
        intro x hx
        have f1 := (check_temporal_sameFrame S p sim).2.2.1
        have f2 := (check_spatial_sameFrame (check_temporal_conflict S p sim).2 p sim).2.2.1
        rw [← f2, ← f1]
        exact h x (List.mem_cons_of_mem _ hx)
      · rw [if_neg htc]
        apply ih
        intro x hx
        rw [← (check_temporal_sameFrame S p sim).2.2.1]
        exact h x (List.mem_cons_of_mem _ hx)

/-- Under the invariant, every gathered candidate id can be looked up. -/
theorem relevant_registered (S : DeconflictionSystem) (p : Drone)
    (hInv : IndexRegistered S) :
    ∀ id ∈ relevant_drones S p, (dictLookup id S.simulated_drones).isSome = true := by
  intro id hid
  obtain ⟨t, bucket, hmem, h1, h2, hin⟩ := (mem_relevant_drones S p id).mp hid
  exact hInv (t, bucket) hmem id hin

/-- Under the invariant, `validate_mission` always returns a result. -/
theorem validate_mission_total (S : DeconflictionSystem) (p : Drone) (now1 now2 : ℚ)
    (hInv : IndexRegistered S) : (validate_mission S p now1 now2).isSome = true := by
  rw [validate_mission_eq]
  cases hl : validateLoop p (relevant_drones S p) (initialResults S, S) with
  | none =>
    have ht := validateLoop_total p (relevant_drones S p) (initialResults S) S
      (relevant_registered S p hInv)
    rw [hl] at ht
    cases ht
  | some rs => rfl

/-- C9: along every sequence of registrations and validations, every mission id
appearing in any temporal-index bucket is a key of the registry mapping, and
consequently the registry subscript `validate_mission` performs for each
gathered candidate always succeeds — the call never raises `KeyError` (returns
`some` in this embedding). -/
theorem C9_index_ids_registered (S : DeconflictionSystem) (h : Reachable S) :
    IndexRegistered S
  ∧ ∀ (p : Drone) (now1 now2 : ℚ), (validate_mission S p now1 now2).isSome = true := by
  have hInv := reachable_indexRegistered h
  exact ⟨hInv, fun p now1 now2 => validate_mission_total S p now1 now2 hInv⟩

/-- C9 witness: the invariant and totality at a freshly constructed engine. -/
theorem C9_index_ids_registered_witness :
    IndexRegistered (initSystem 10 1000)
  ∧ ∀ (p : Drone) (now1 now2 : ℚ),
      (validate_mission (initSystem 10 1000) p now1 now2).isSome = true :=
  C9_index_ids_registered (initSystem 10 1000) (Reachable.init 10 1000)

/-- The candidate list depends only on the temporal index. -/
theorem relevant_drones_congr {S1 S2 : DeconflictionSystem} (p : Drone)
    (h : S1.time_index = S2.time_index) :
    relevant_drones S1 p = relevant_drones S2 p := by
  unfold relevant_drones
  rw [h]

/-- The initial results dictionary depends only on the registry size. -/
theorem initialResults_congr {S1 S2 : DeconflictionSystem}
    (h : S1.simulated_drones = S2.simulated_drones) :
    initialResults S1 = initialResults S2 := by
  unfold initialResults
  rw [h]

/-- C2 (amended): validating the same mission twice against an unchanged
registry yields identical `status` and identical `conflicts` (hence identical
conflict location sets), the second call changes no engine state at all (every
pair check is a cache hit that skips recomputation), and `cache_hits` is 0 in
BOTH results — the counter is initialized but never incremented anywhere, so
it does not increase on the second call as the claim asserts. -/
theorem C2_validate_idempotent (S : DeconflictionSystem) (p : Drone)
    (n1 n2 n3 n4 : ℚ) (r1 r2 : VResult) (S1 S2 : DeconflictionSystem)
    (h1 : validate_mission S p n1 n2 = some (r1, S1))
    (h2 : validate_mission S1 p n3 n4 = some (r2, S2)) :
    r2.status = r1.status
  ∧ r2.conflicts = r1.conflicts
  ∧ r1.performance.cache_hits = 0
  ∧ r2.performance.cache_hits = 0
  ∧ S2 = S1 := by
  have frame := validate_mission_frame S p n1 n2 r1 S1 h1
  rw [validate_mission_eq] at h1 h2
  cases hl1 : validateLoop p (relevant_drones S p) (initialResults S, S) with
  | none => rw [hl1] at h1; cases h1
  | some rs1 =>
    obtain ⟨res, S1x⟩ := rs1
    rw [hl1] at h1
    have hq1 := Option.some_inj.mp h1
    have hS1 : S1 = S1x := (congrArg Prod.snd hq1).symm
    subst hS1
    have hr1 : _ = r1 := congrArg Prod.fst hq1
    have hrel : relevant_drones S1 p = relevant_drones S p :=
      relevant_drones_congr p frame.2.1
    have hinit : initialResults S1 = initialResults S :=
      initialResults_congr frame.1
    have hstab := validateLoop_stable p (relevant_drones S p) (initialResults S)
      S res S1 S1 hl1 frame.1 (cacheLE_refl _)
    rw [hrel, hinit, hstab] at h2
    have hq2 := Option.some_inj.mp h2
    have hS2 : S1 = S2 := congrArg Prod.snd hq2
    have hr2 : _ = r2 := congrArg Prod.fst hq2
    have hch := validateLoop_cache_hits p _ _ _ _ _ hl1
    refine ⟨?_, ?_, ?_, ?_, hS2.symm⟩
    · rw [← hr1, ← hr2]
    · rw [← hr1, ← hr2]
    · rw [← hr1]; exact hch
    · rw [← hr2]; exact hch

/-- C2 witness: the two concrete back-to-back validations of `droneA` against
`sysB` agree in status and conflicts, the second changes nothing, and both
report zero cache hits. -/
theorem C2_validate_idempotent_witness :
    vrs2.1.status = vrs1.1.status
  ∧ vrs2.1.conflicts = vrs1.1.conflicts
  ∧ vrs1.1.performance.cache_hits = 0
  ∧ vrs2.1.performance.cache_hits = 0
  ∧ vrs2.2 = vrs1.2 :=
  C2_validate_idempotent sysB droneA 100 101 200 201 vrs1.1 vrs2.1 vrs1.2 vrs2.2
    (by with_unfolding_all rfl) (by with_unfolding_all rfl)

set_option maxRecDepth 8192 in
/-- C2 counterexample: in the concrete repeated validation the second call is
answered from the cache (it leaves the state unchanged and reproduces the
first result), yet its `cache_hits` metric is 0 — NOT greater than the first
call's 0.  The counter is never incremented in the source. -/
theorem C2_counterexample :
    vrs1.1.status = "conflict"
  ∧ vrs2.1.status = vrs1.1.status
  ∧ vrs2.1.conflicts = vrs1.1.conflicts
  ∧ vrs2.2 = vrs1.2
  ∧ vrs1.1.performance.cache_hits = 0
  ∧ vrs2.1.performance.cache_hits = 0
  ∧ ¬ vrs1.1.performance.cache_hits < vrs2.1.performance.cache_hits := by
  with_unfolding_all decide
